import Mathlib

/-!
# Checkpoints (src/checkpoints.cpp)

A shallow embedding of the `Checkpoints` namespace: the checkpoint table, the
validity check `CheckBlock`, the progress estimate `GuessVerificationProgress`,
`GetTotalBlocksEstimate` and the reverse scan `GetLastCheckpoint`.

Modelling conventions.

* `std::map<K, V>` is the list of its entries in iteration order (ascending keys).
  `find` returns the entry with the given key (`none` is `end()`), `rbegin` is the
  last entry, and reverse iteration walks the reversed list.
* `int`, `int64` and the integer fields of `CBlockIndex` are `Int`; no operation of
  the file is modelled with wrap-around.
* `uint256` is `Nat`; only equality of hashes is ever used.
* `double` values are modelled twice.  `GuessVerificationProgress` computes over exact
  rationals, with the division `fdiv` undefined (`none`) at a zero divisor: this is the
  progress formula in exact arithmetic.  `GuessVerificationProgress64` computes the same
  lines in IEEE-754 binary64 (`Double`), every operation rounded to nearest with ties to
  even, with signed zeros, infinities and NaN: this is what the compiled code returns.
* Pointers `CBlockIndex*` are `Option CBlockIndex`, `NULL` being `none`.
* The external inputs `GetBoolArg("-checkpoints", true)` and `time(NULL)` are passed
  as the explicit arguments `fCheckpoints` and `nNow`.
-/

set_option linter.dupNamespace false
set_option maxRecDepth 100000
set_option exponentiation.threshold 4096

namespace Checkpoints

/-- The type `uint256` of block hashes. -/
abbrev uint256 := Nat

/-- The type `std::map<K, V>`, as the list of entries in ascending key order. -/
abbrev StdMap (κ ν : Type) := List (κ × ν)

/-- The `std::map` invariant: keys strictly ascending in iteration order. -/
def StdMap.Ordered {ν : Type} (m : StdMap Int ν) : Prop :=
  m.Pairwise (fun a b => a.1 < b.1)

instance {ν : Type} (m : StdMap Int ν) : Decidable (StdMap.Ordered m) := by
  unfold StdMap.Ordered; infer_instance

/-- Member `std::map::find`: the entry stored under `k`, or `none` for `end()`. -/
def StdMap.find {κ ν : Type} [DecidableEq κ] (m : StdMap κ ν) (k : κ) : Option (κ × ν) :=
  List.find? (fun e => decide (e.1 = k)) m

/-- Member `std::map::insert` on an `int`-keyed map: keeps the keys ascending and
leaves the map unchanged when the key is already present. -/
def StdMap.insert {ν : Type} (k : Int) (v : ν) : StdMap Int ν → StdMap Int ν
  | [] => [(k, v)]
  | e :: rest =>
    if k < e.1 then (k, v) :: e :: rest
    else if k = e.1 then e :: rest
    else e :: StdMap.insert k v rest

/-- The builder `boost::assign::map_list_of`: inserts the listed pairs one after another. -/
def map_list_of {ν : Type} (l : List (Int × ν)) : StdMap Int ν :=
  l.foldl (fun m e => StdMap.insert e.1 e.2 m) []

/-- The type `MapCheckpoints`, `std::map<int, uint256>`. -/
abbrev MapCheckpoints := StdMap Int uint256

/-- The constant `fSigcheckVerificationFactor`. -/
def fSigcheckVerificationFactor : ℚ := 5

/-- The struct `CCheckpointData`. -/
structure CCheckpointData where
  mapCheckpoints : MapCheckpoints
  nTimeLastCheckpoint : Int
  nTransactionsLastCheckpoint : Int
  fTransactionsPerDay : ℚ

/-- Modelled from the spec: the class `CBlockIndex` is declared in main.h, which is not
part of the sources; the fields are those of the spec's ChainIndexNode (height,
timestamp, cumulative transaction count, block hash), under the names the code uses
for the two it reads. -/
structure CBlockIndex where
  nHeight : Int
  nTime : Int
  nChainTx : Int
  blockHash : uint256
  deriving DecidableEq

/-- The static table `mapCheckpoints`. -/
def mapCheckpoints : MapCheckpoints :=
  map_list_of
    [ (0, 0x563ac70cc2642286ad8463559011621fc4debe7ab2525900f74d079fc73cb5f2),
      (9649, 0x76712bc630c81d539ca51d410784af8b0ad9034867a8a4db12e8f0f0c0f39c1c),
      (20000, 0x2bbee592fa2f3738cad266d038f725e0d2ba7edf1b80380fa39608f523a31404),
      (30000, 0x1c3fee4059cf4147b4e234937f8292304f92eca8d7f34338039e97937d1211f3),
      (40000, 0x65585e9d874db1b9c4d02e5a3ffaa6275efb6c14c731f05799b0485ef1f47919),
      (50000, 0xe25b98e32bfa15a9729e8e988021df1fea31f28e137fcc5b9ff610668aab0a9a),
      (60000, 0xd5ec242db805d2cefb7dcca8aa2888cc20b802f4819c9a4d488a66b0032a925b),
      (70000, 0xc34628d3939502c31b9173a452e7c2af31fe2c72d193e9bac26ce7356d0af2d7),
      (80000, 0xb6dc848ecd9c68a86536b09e068919a87cad69bf29b2378531486941caade839),
      (90000, 0x0ca9b832934f5afeff66bf22f48bd7c09cba227b25d33347df704c43788f01db),
      (100000, 0x4aab6fc1a528d587a8357f62ce9ec8a84e7990b486389d352c0eb0c1652e6ded),
      (150000, 0xb1391e2d3f10d596d715d49add86425ac5d4ec82dc3aff88bb230f0c8d5ef76f),
      (196177, 0x71d89b625667c8f4f6b6c6a70ca68fa8143dda941f896273794e821923b0dd57) ]

/-- The static record `data`. -/
def data : CCheckpointData :=
  { mapCheckpoints := mapCheckpoints
    nTimeLastCheckpoint := 1489231307
    nTransactionsLastCheckpoint := 23062
    fTransactionsPerDay := 576 }

/-- The accessor `Checkpoints()`. -/
def Checkpoints : CCheckpointData := data

/-- The function `CheckBlock`.  The functions below take the record returned by
`Checkpoints()` as the argument `d`; the program runs them at `d = Checkpoints`. -/
def CheckBlock (fCheckpoints : Bool) (d : CCheckpointData) (nHeight : Int) (hash : uint256) :
    Bool :=
  if !fCheckpoints then true
  else
    let checkpoints := d.mapCheckpoints
    match checkpoints.find nHeight with
    | none => true
    | some i => decide (hash = i.2)

/-- Division of two `double` values: a finite quotient unless the divisor is zero. -/
def fdiv (a b : ℚ) : Option ℚ :=
  if b = 0 then none else some (a / b)

/-- The two work figures `(fWorkBefore, fWorkAfter)` that `GuessVerificationProgress`
computes for a non-null `pindex`. -/
def GuessVerificationProgress.work (d : CCheckpointData) (nNow : Int) (pindex : CBlockIndex) :
    ℚ × ℚ :=
  if pindex.nChainTx ≤ d.nTransactionsLastCheckpoint then
    let nCheapBefore : ℚ := (pindex.nChainTx : ℚ)
    let nCheapAfter : ℚ := ((d.nTransactionsLastCheckpoint - pindex.nChainTx : Int) : ℚ)
    let nExpensiveAfter : ℚ :=
      ((nNow - d.nTimeLastCheckpoint : Int) : ℚ) / 86400 * d.fTransactionsPerDay
    (nCheapBefore, nCheapAfter + nExpensiveAfter * fSigcheckVerificationFactor)
  else
    let nCheapBefore : ℚ := (d.nTransactionsLastCheckpoint : ℚ)
    let nExpensiveBefore : ℚ := ((pindex.nChainTx - d.nTransactionsLastCheckpoint : Int) : ℚ)
    let nExpensiveAfter : ℚ :=
      ((nNow - pindex.nTime : Int) : ℚ) / 86400 * d.fTransactionsPerDay
    (nCheapBefore + nExpensiveBefore * fSigcheckVerificationFactor,
      nExpensiveAfter * fSigcheckVerificationFactor)

/-- The function `GuessVerificationProgress`. -/
def GuessVerificationProgress (d : CCheckpointData) (nNow : Int) (pindex : Option CBlockIndex) :
    Option ℚ :=
  match pindex with
  | none => some 0
  | some p =>
    let w := GuessVerificationProgress.work d nNow p
    fdiv w.1 (w.1 + w.2)

/-- An IEEE-754 binary64 value.  `finite sign m e` is the number `(-1)^sign * m * 2^e`
in its canonical form: `m < 2^53` and either `2^52 ≤ m` with `-1074 ≤ e ≤ 971` (normal)
or `e = -1074` (subnormal, and the two zeros when `m = 0`). -/
inductive Double where
  | finite (sign : Bool) (m : Nat) (e : Int)
  | inf (sign : Bool)
  | nan
  deriving DecidableEq

/-- The number of binary digits of `n`, computed with `fuel` halvings at most. -/
def Double.bitLengthAux : Nat → Nat → Nat
  | 0, _ => 0
  | fuel + 1, n => if n = 0 then 0 else Double.bitLengthAux fuel (n / 2) + 1

/-- The number of binary digits of `n`: the least `b` with `n < 2^b`. -/
def Double.bitLength (n : Nat) : Nat :=
  Double.bitLengthAux n n

/-- Rounding to binary64, to nearest with ties to even, of the rational `n / d` with
the sign `sign`: overflow gives an infinity, underflow a subnormal or a signed zero. -/
def Double.round (sign : Bool) (n d : Nat) : Double :=
  if d = 0 then Double.nan
  else if n = 0 then Double.finite sign 0 (-1074)
  else
    let e₀ : Int := (Double.bitLength n : Int) - (Double.bitLength d : Int)
    let ge : Bool := if 0 ≤ e₀ then decide (d * 2 ^ e₀.toNat ≤ n) else decide (d ≤ n * 2 ^ (-e₀).toNat)
    let e : Int := if ge then e₀ else e₀ - 1
    let qe : Int := max (e - 52) (-1074)
    let num : Nat := if qe < 0 then n * 2 ^ (-qe).toNat else n
    let den : Nat := if qe < 0 then d else d * 2 ^ qe.toNat
    let q : Nat := num / den
    let r : Nat := num % den
    let m : Nat := if den < 2 * r ∨ (2 * r = den ∧ q % 2 = 1) then q + 1 else q
    let m' : Nat := if m = 2 ^ 53 then 2 ^ 52 else m
    let qe' : Int := if m = 2 ^ 53 then qe + 1 else qe
    if 971 < qe' then Double.inf sign else Double.finite sign m' qe'

/-- Rounding to binary64 of `(n / d) * 2^k` with the sign `sign`. -/
def Double.roundScaled (sign : Bool) (n d : Nat) (k : Int) : Double :=
  if 0 ≤ k then Double.round sign (n * 2 ^ k.toNat) d
  else Double.round sign n (d * 2 ^ (-k).toNat)

/-- Conversion of an integer to `double`. -/
def Double.ofInt (i : Int) : Double :=
  Double.round (decide (i < 0)) i.natAbs 1

/-- The `double` nearest to a rational constant. -/
def Double.ofRat (q : ℚ) : Double :=
  Double.round (decide (q.num < 0)) q.num.natAbs q.den

/-- Addition of two `double` values. -/
def Double.add : Double → Double → Double
  | Double.nan, _ => Double.nan
  | _, Double.nan => Double.nan
  | Double.inf s, Double.inf s' => if s = s' then Double.inf s else Double.nan
  | Double.inf s, Double.finite _ _ _ => Double.inf s
  | Double.finite _ _ _, Double.inf s => Double.inf s
  | Double.finite sa ma ea, Double.finite sb mb eb =>
    let k : Int := min ea eb
    let va : Int := (if sa then -1 else 1) * ((ma * 2 ^ (ea - k).toNat : Nat) : Int)
    let vb : Int := (if sb then -1 else 1) * ((mb * 2 ^ (eb - k).toNat : Nat) : Int)
    let s : Int := va + vb
    if s = 0 then Double.finite (sa && sb) 0 (-1074)
    else Double.roundScaled (decide (s < 0)) s.natAbs 1 k

/-- Multiplication of two `double` values. -/
def Double.mul : Double → Double → Double
  | Double.nan, _ => Double.nan
  | _, Double.nan => Double.nan
  | Double.inf s, Double.inf s' => Double.inf (xor s s')
  | Double.inf s, Double.finite sb mb _ => if mb = 0 then Double.nan else Double.inf (xor s sb)
  | Double.finite sa ma _, Double.inf s => if ma = 0 then Double.nan else Double.inf (xor sa s)
  | Double.finite sa ma ea, Double.finite sb mb eb =>
    Double.roundScaled (xor sa sb) (ma * mb) 1 (ea + eb)

/-- Division of two `double` values: a zero divisor gives NaN for a zero dividend and
an infinity for any other one. -/
def Double.div : Double → Double → Double
  | Double.nan, _ => Double.nan
  | _, Double.nan => Double.nan
  | Double.inf _, Double.inf _ => Double.nan
  | Double.inf s, Double.finite sb _ _ => Double.inf (xor s sb)
  | Double.finite sa _ _, Double.inf s => Double.finite (xor sa s) 0 (-1074)
  | Double.finite sa ma ea, Double.finite sb mb eb =>
    if mb = 0 then (if ma = 0 then Double.nan else Double.inf (xor sa sb))
    else Double.roundScaled (xor sa sb) ma mb (ea - eb)

/-- Whether a `double` is a finite number (neither an infinity nor NaN). -/
def Double.isFinite : Double → Bool
  | Double.finite _ _ _ => true
  | _ => false

/-- Whether a `double` is one of the two zeros `+0.0` and `-0.0`. -/
def Double.isZero : Double → Bool
  | Double.finite _ m _ => decide (m = 0)
  | _ => false

/-- The two work figures `(fWorkBefore, fWorkAfter)` of `GuessVerificationProgress` for a
non-null `pindex`, computed in binary64 operation by operation as in the source. -/
def GuessVerificationProgress64.work (d : CCheckpointData) (nNow : Int)
    (pindex : CBlockIndex) : Double × Double :=
  let fTransactionsPerDay : Double := Double.ofRat d.fTransactionsPerDay
  let factor : Double := Double.ofRat fSigcheckVerificationFactor
  if pindex.nChainTx ≤ d.nTransactionsLastCheckpoint then
    let nCheapBefore : Double := Double.ofInt pindex.nChainTx
    let nCheapAfter : Double := Double.ofInt (d.nTransactionsLastCheckpoint - pindex.nChainTx)
    let nExpensiveAfter : Double :=
      ((Double.ofInt (nNow - d.nTimeLastCheckpoint)).div (Double.ofInt 86400)).mul
        fTransactionsPerDay
    (nCheapBefore, nCheapAfter.add (nExpensiveAfter.mul factor))
  else
    let nCheapBefore : Double := Double.ofInt d.nTransactionsLastCheckpoint
    let nExpensiveBefore : Double :=
      Double.ofInt (pindex.nChainTx - d.nTransactionsLastCheckpoint)
    let nExpensiveAfter : Double :=
      ((Double.ofInt (nNow - pindex.nTime)).div (Double.ofInt 86400)).mul fTransactionsPerDay
    (nCheapBefore.add (nExpensiveBefore.mul factor), nExpensiveAfter.mul factor)

/-- The function `GuessVerificationProgress` in binary64: the value the code returns. -/
def GuessVerificationProgress64 (d : CCheckpointData) (nNow : Int)
    (pindex : Option CBlockIndex) : Double :=
  match pindex with
  | none => Double.ofInt 0
  | some p =>
    let w := GuessVerificationProgress64.work d nNow p
    w.1.div (w.1.add w.2)

/-- The function `GetTotalBlocksEstimate`; `none` when `rbegin()` is dereferenced on an
empty map. -/
def GetTotalBlocksEstimate (fCheckpoints : Bool) (d : CCheckpointData) : Option Int :=
  if !fCheckpoints then some 0
  else
    let checkpoints := d.mapCheckpoints
    checkpoints.getLast?.map (fun e => e.1)

/-- The loop of `GetLastCheckpoint` over the entries still to visit. -/
def GetLastCheckpoint.loop (mapBlockIndex : StdMap uint256 (Option CBlockIndex)) :
    List (Int × uint256) → Option CBlockIndex
  | [] => none
  | i :: rest =>
    let hash := i.2
    match mapBlockIndex.find hash with
    | some t => t.2
    | none => GetLastCheckpoint.loop mapBlockIndex rest

/-- The function `GetLastCheckpoint`. -/
def GetLastCheckpoint (fCheckpoints : Bool) (d : CCheckpointData)
    (mapBlockIndex : StdMap uint256 (Option CBlockIndex)) : Option CBlockIndex :=
  if !fCheckpoints then none
  else
    let checkpoints := d.mapCheckpoints
    GetLastCheckpoint.loop mapBlockIndex checkpoints.reverse

/-- The registry of the spec's scenarios: heights 0 and 100, with the metadata
timestamp 1000, transaction count 50 and 10 transactions per day. -/
def scenarioData : CCheckpointData :=
  { mapCheckpoints := map_list_of [(0, 0xa), (100, 0xb)]
    nTimeLastCheckpoint := 1000
    nTransactionsLastCheckpoint := 50
    fTransactionsPerDay := 10 }

/-- A chain-index node with the given height, timestamp, transaction count and hash. -/
def scenarioNode (nHeight nTime nChainTx : Int) (blockHash : uint256) : CBlockIndex :=
  { nHeight := nHeight, nTime := nTime, nChainTx := nChainTx, blockHash := blockHash }

/-- The index of scenario 3: it holds the nodes of both checkpoints and one more block. -/
def scenarioIndex : StdMap uint256 (Option CBlockIndex) :=
  [ (0xa, some (scenarioNode 0 900 1 0xa)),
    (0xb, some (scenarioNode 100 1000 50 0xb)),
    (0xc, some (scenarioNode 101 1010 51 0xc)) ]

/-- The work figures `(fWorkBefore, fWorkAfter)` assigned in the `if` branch of
`GuessVerificationProgress`, taken when `nChainTx <= nTransactionsLastCheckpoint`. -/
def GuessVerificationProgress.workCaseA (d : CCheckpointData) (nNow : Int)
    (pindex : CBlockIndex) : ℚ × ℚ :=
  let nCheapBefore : ℚ := (pindex.nChainTx : ℚ)
  let nCheapAfter : ℚ := ((d.nTransactionsLastCheckpoint - pindex.nChainTx : Int) : ℚ)
  let nExpensiveAfter : ℚ :=
    ((nNow - d.nTimeLastCheckpoint : Int) : ℚ) / 86400 * d.fTransactionsPerDay
  (nCheapBefore, nCheapAfter + nExpensiveAfter * fSigcheckVerificationFactor)

/-- The work figures `(fWorkBefore, fWorkAfter)` assigned in the `else` branch of
`GuessVerificationProgress`. -/
def GuessVerificationProgress.workCaseB (d : CCheckpointData) (nNow : Int)
    (pindex : CBlockIndex) : ℚ × ℚ :=
  let nCheapBefore : ℚ := (d.nTransactionsLastCheckpoint : ℚ)
  let nExpensiveBefore : ℚ := ((pindex.nChainTx - d.nTransactionsLastCheckpoint : Int) : ℚ)
  let nExpensiveAfter : ℚ :=
    ((nNow - pindex.nTime : Int) : ℚ) / 86400 * d.fTransactionsPerDay
  (nCheapBefore + nExpensiveBefore * fSigcheckVerificationFactor,
    nExpensiveAfter * fSigcheckVerificationFactor)

/-- The second index of the scenarios: it agrees with `scenarioIndex` on the two
checkpoint hashes and differs on every other key. -/
def scenarioIndexOther : StdMap uint256 (Option CBlockIndex) :=
  [ (0x9, none),
    (0xa, some (scenarioNode 0 900 1 0xa)),
    (0xb, some (scenarioNode 100 1000 50 0xb)),
    (0xc, some (scenarioNode 777 2000 99 0xc)),
    (0xf, some (scenarioNode 102 1020 52 0xf)) ]

/-! ## Lemmas on `std::map` lookups -/

theorem StdMap.find_eq_none_iff {κ ν : Type} [DecidableEq κ] (m : StdMap κ ν) (k : κ) :
    m.find k = none ↔ ∀ e ∈ m, e.1 ≠ k := by
  simp [StdMap.find, List.find?_eq_none]

theorem StdMap.find_some_key {κ ν : Type} [DecidableEq κ] (m : StdMap κ ν) (k : κ)
    (e : κ × ν) (h : m.find k = some e) : e ∈ m ∧ e.1 = k := by
  unfold StdMap.find at h
  refine ⟨List.mem_of_find?_eq_some h, ?_⟩
  simpa using List.find?_some h

theorem StdMap.find_of_mem {ν : Type} (m : StdMap Int ν) (hord : StdMap.Ordered m)
    (e : Int × ν) (he : e ∈ m) : m.find e.1 = some e := by
  induction m with
  | nil => cases he
  | cons a rest ih =>
    have hord' : (∀ b ∈ rest, a.1 < b.1) ∧ StdMap.Ordered rest := by
      simpa [StdMap.Ordered] using hord
    rcases List.mem_cons.mp he with rfl | hmem
    · simp [StdMap.find]
    · have hne : ¬ a.1 = e.1 := fun h => by
        have := hord'.1 e hmem
        omega
      have := ih hord'.2 hmem
      simpa [StdMap.find, hne] using this

/-! ## CheckBlock -/

/-- C1: with checkpoints enabled, for a height `h` registered with hash `H` and any
hash `H'`, `CheckBlock h H'` is true exactly when `H' = H`; hence it is true at `H`
and false at every other hash. -/
theorem CheckBlock_registered_iff (d : CCheckpointData) (h : Int) (H H' : uint256)
    (hord : StdMap.Ordered d.mapCheckpoints) (hreg : (h, H) ∈ d.mapCheckpoints) :
    (CheckBlock true d h H' = true ↔ H' = H) ∧ CheckBlock true d h H = true ∧
      (H' ≠ H → CheckBlock true d h H' = false) := by
  have hfind : d.mapCheckpoints.find h = some (h, H) :=
    StdMap.find_of_mem d.mapCheckpoints hord (h, H) hreg
  have key : ∀ X : uint256, CheckBlock true d h X = decide (X = H) := by
    intro X
    simp [CheckBlock, hfind]
  refine ⟨by simp [key], by simp [key], fun hne => by simp [key, hne]⟩

/-- C2: with checkpoints enabled, `CheckBlock` is true at every height that is not a
key of the checkpoint map, whatever the hash. -/
theorem CheckBlock_unregistered (d : CCheckpointData) (h : Int) (hash : uint256)
    (hnot : ∀ e ∈ d.mapCheckpoints, e.1 ≠ h) : CheckBlock true d h hash = true := by
  have hfind : d.mapCheckpoints.find h = none :=
    (StdMap.find_eq_none_iff d.mapCheckpoints h).mpr hnot
  simp [CheckBlock, hfind]

/-- C3: with checkpoints disabled, `CheckBlock` is true for every height and hash,
`GetTotalBlocksEstimate` is 0 and `GetLastCheckpoint` is null for every index. -/
theorem disabled_opt_out (d : CCheckpointData) (h : Int) (hash : uint256)
    (mapBlockIndex : StdMap uint256 (Option CBlockIndex)) :
    CheckBlock false d h hash = true ∧ GetTotalBlocksEstimate false d = some 0 ∧
      GetLastCheckpoint false d mapBlockIndex = none := by
  simp [CheckBlock, GetTotalBlocksEstimate, GetLastCheckpoint]

/-- Witness of C1 at height 9649 of the table in the source. -/
theorem CheckBlock_registered_iff_witness :
    (CheckBlock true Checkpoints 9649 7 = true ↔
        7 = 0x76712bc630c81d539ca51d410784af8b0ad9034867a8a4db12e8f0f0c0f39c1c) ∧
      CheckBlock true Checkpoints 9649
        0x76712bc630c81d539ca51d410784af8b0ad9034867a8a4db12e8f0f0c0f39c1c = true ∧
      (7 ≠ 0x76712bc630c81d539ca51d410784af8b0ad9034867a8a4db12e8f0f0c0f39c1c →
        CheckBlock true Checkpoints 9649 7 = false) :=
  CheckBlock_registered_iff Checkpoints 9649
    0x76712bc630c81d539ca51d410784af8b0ad9034867a8a4db12e8f0f0c0f39c1c 7
    (by decide) (by decide)

/-- Witness of C2 at the negative height -1 and at the unregistered height 9650. -/
theorem CheckBlock_unregistered_witness :
    CheckBlock true Checkpoints (-1) 7 = true ∧ CheckBlock true Checkpoints 9650 7 = true :=
  ⟨CheckBlock_unregistered Checkpoints (-1) 7 (by decide),
    CheckBlock_unregistered Checkpoints 9650 7 (by decide)⟩

/-! ## GetTotalBlocksEstimate -/

theorem StdMap.le_getLast {ν : Type} (m : StdMap Int ν) (hord : StdMap.Ordered m)
    (l : Int × ν) (hl : m.getLast? = some l) : ∀ e ∈ m, e.1 ≤ l.1 := by
  intro e he
  obtain ⟨pre, rfl⟩ : ∃ pre, m = pre ++ [l] := by
    rcases List.getLast?_eq_some_iff.mp hl with ⟨pre, h⟩
    exact ⟨pre, h⟩
  have hp := (List.pairwise_append.mp hord).2.2
  rcases List.mem_append.mp he with h | h
  · exact le_of_lt (hp e h l (by simp))
  · have : e = l := by simpa using h
    rw [this]

/-- C6: with checkpoints enabled and a non-empty checkpoint map, `GetTotalBlocksEstimate`
returns the greatest registered height: a registered height that bounds every
registered height, non-negative when the heights are.  For the table in the source it
is 196177. -/
theorem GetTotalBlocksEstimate_max :
    (∀ d : CCheckpointData, StdMap.Ordered d.mapCheckpoints → d.mapCheckpoints ≠ [] →
      ∃ r, GetTotalBlocksEstimate true d = some r ∧ (∀ e ∈ d.mapCheckpoints, e.1 ≤ r) ∧
        (∃ e ∈ d.mapCheckpoints, e.1 = r) ∧ ((∀ e ∈ d.mapCheckpoints, 0 ≤ e.1) → 0 ≤ r)) ∧
      GetTotalBlocksEstimate true Checkpoints = some 196177 ∧ (0 : Int) ≤ 196177 := by
  refine ⟨?_, by decide, by decide⟩
  intro d hord hne
  obtain ⟨l, hl⟩ : ∃ l, d.mapCheckpoints.getLast? = some l := by
    cases h : d.mapCheckpoints.getLast? with
    | none => exact absurd (List.getLast?_eq_none_iff.mp h) hne
    | some l => exact ⟨l, rfl⟩
  have hmem : l ∈ d.mapCheckpoints := List.mem_of_getLast?_eq_some hl
  refine ⟨l.1, by simp [GetTotalBlocksEstimate, hl],
    StdMap.le_getLast d.mapCheckpoints hord l hl, ⟨l, hmem, rfl⟩, fun h => h l hmem⟩

/-- Witness of C6 at the table in the source. -/
theorem GetTotalBlocksEstimate_max_witness :
    ∃ r, GetTotalBlocksEstimate true Checkpoints = some r ∧
      (∀ e ∈ Checkpoints.mapCheckpoints, e.1 ≤ r) ∧
      (∃ e ∈ Checkpoints.mapCheckpoints, e.1 = r) ∧
      ((∀ e ∈ Checkpoints.mapCheckpoints, 0 ≤ e.1) → 0 ≤ r) :=
  GetTotalBlocksEstimate_max.1 Checkpoints (by decide) (by decide)

/-! ## GetLastCheckpoint -/

theorem GetLastCheckpoint.loop_none (idx : StdMap uint256 (Option CBlockIndex))
    (l : List (Int × uint256)) (h : ∀ e ∈ l, idx.find e.2 = none) :
    GetLastCheckpoint.loop idx l = none := by
  induction l with
  | nil => rfl
  | cons a rest ih =>
    have ha : idx.find a.2 = none := h a (by simp)
    have hr : ∀ e ∈ rest, idx.find e.2 = none := fun e he => h e (by simp [he])
    simp [GetLastCheckpoint.loop, ha, ih hr]

theorem GetLastCheckpoint.loop_first (idx : StdMap uint256 (Option CBlockIndex))
    (l : List (Int × uint256)) (h : ∃ e ∈ l, idx.find e.2 ≠ none) :
    ∃ pre e post t, l = pre ++ e :: post ∧ (∀ x ∈ pre, idx.find x.2 = none) ∧
      idx.find e.2 = some t ∧ GetLastCheckpoint.loop idx l = t.2 := by
  induction l with
  | nil =>
    obtain ⟨e, he, _⟩ := h
    cases he
  | cons a rest ih =>
    cases hfa : idx.find a.2 with
    | some t =>
      exact ⟨[], a, rest, t, rfl, by simp, hfa, by simp [GetLastCheckpoint.loop, hfa]⟩
    | none =>
      have h' : ∃ e ∈ rest, idx.find e.2 ≠ none := by
        obtain ⟨e, he, hne⟩ := h
        rcases List.mem_cons.mp he with rfl | hmem
        · exact absurd hfa hne
        · exact ⟨e, hmem, hne⟩
      obtain ⟨pre, e, post, t, hl, hpre, hfe, hloop⟩ := ih h'
      refine ⟨a :: pre, e, post, t, by simp [hl], ?_, hfe, ?_⟩
      · intro x hx
        rcases List.mem_cons.mp hx with rfl | hmem
        · exact hfa
        · exact hpre x hmem
      · simp [GetLastCheckpoint.loop, hfa, hloop]

/-- C4: with checkpoints enabled, when at least one checkpoint hash is a key of the
index, `GetLastCheckpoint` returns the pointer the index stores under the hash of a
checkpoint `e` such that no checkpoint of greater height has its hash in the index. -/
theorem GetLastCheckpoint_highest (d : CCheckpointData)
    (idx : StdMap uint256 (Option CBlockIndex)) (hord : StdMap.Ordered d.mapCheckpoints)
    (hex : ∃ e ∈ d.mapCheckpoints, idx.find e.2 ≠ none) :
    ∃ e ∈ d.mapCheckpoints, ∃ t, idx.find e.2 = some t ∧
      GetLastCheckpoint true d idx = t.2 ∧
      ∀ c ∈ d.mapCheckpoints, e.1 < c.1 → idx.find c.2 = none := by
  have hex' : ∃ e ∈ d.mapCheckpoints.reverse, idx.find e.2 ≠ none := by
    obtain ⟨e, he, hne⟩ := hex
    exact ⟨e, List.mem_reverse.mpr he, hne⟩
  obtain ⟨pre, e, post, t, hl, hpre, hfe, hloop⟩ :=
    GetLastCheckpoint.loop_first idx d.mapCheckpoints.reverse hex'
  have hm : d.mapCheckpoints = post.reverse ++ e :: pre.reverse := by
    have := congrArg List.reverse hl
    simpa using this
  have hmem : e ∈ d.mapCheckpoints := by rw [hm]; simp
  refine ⟨e, hmem, t, hfe, by simp [GetLastCheckpoint, hloop], ?_⟩
  intro c hc hlt
  have hp : List.Pairwise (fun a b : Int × uint256 => a.1 < b.1)
      (post.reverse ++ e :: pre.reverse) := by
    have := hord
    rwa [StdMap.Ordered, hm] at this
  rw [hm] at hc
  rcases List.mem_append.mp hc with h | h
  · have := (List.pairwise_append.mp hp).2.2 c h e (by simp)
    omega
  · rcases List.mem_cons.mp h with rfl | h
    · omega
    · exact hpre c (List.mem_reverse.mp h)

/-- Witness of C4, scenario 3: with the registry of heights 0 and 100 and an index that
holds both hashes, the result is the node stored under the hash of height 100. -/
theorem GetLastCheckpoint_highest_witness :
    (∃ e ∈ scenarioData.mapCheckpoints, ∃ t, scenarioIndex.find e.2 = some t ∧
      GetLastCheckpoint true scenarioData scenarioIndex = t.2 ∧
      ∀ c ∈ scenarioData.mapCheckpoints, e.1 < c.1 → scenarioIndex.find c.2 = none) ∧
    scenarioData.mapCheckpoints = [(0, 0xa), (100, 0xb)] ∧
    scenarioIndex.find 0xa ≠ none ∧
    scenarioIndex.find 0xb = some (0xb, some (scenarioNode 100 1000 50 0xb)) ∧
    GetLastCheckpoint true scenarioData scenarioIndex = some (scenarioNode 100 1000 50 0xb) :=
  ⟨GetLastCheckpoint_highest scenarioData scenarioIndex (by decide)
      ⟨(100, 0xb), by decide, by decide⟩,
    by decide, by decide, by decide, by decide⟩

/-- C5: with checkpoints enabled, when no checkpoint hash is a key of the index,
`GetLastCheckpoint` returns null. -/
theorem GetLastCheckpoint_no_match (d : CCheckpointData)
    (idx : StdMap uint256 (Option CBlockIndex))
    (hno : ∀ e ∈ d.mapCheckpoints, idx.find e.2 = none) :
    GetLastCheckpoint true d idx = none := by
  have h : ∀ e ∈ d.mapCheckpoints.reverse, idx.find e.2 = none :=
    fun e he => hno e (List.mem_reverse.mp he)
  simp [GetLastCheckpoint, GetLastCheckpoint.loop_none idx _ h]

/-- Witness of C5, scenario 4: the table in the source against an empty index and
against an index whose only key is not a checkpoint hash. -/
theorem GetLastCheckpoint_no_match_witness :
    GetLastCheckpoint true Checkpoints [] = none ∧
      GetLastCheckpoint true Checkpoints [(0xc, some (scenarioNode 101 1010 51 0xc))] = none :=
  ⟨GetLastCheckpoint_no_match Checkpoints [] (by decide),
    GetLastCheckpoint_no_match Checkpoints [(0xc, some (scenarioNode 101 1010 51 0xc))]
      (by decide)⟩

/-! ## GuessVerificationProgress -/

theorem GuessVerificationProgress.work_caseA (d : CCheckpointData) (T : Int) (p : CBlockIndex)
    (h : p.nChainTx ≤ d.nTransactionsLastCheckpoint) :
    GuessVerificationProgress.work d T p =
      ((p.nChainTx : ℚ),
        ((d.nTransactionsLastCheckpoint : ℚ) - (p.nChainTx : ℚ)) +
          (((T : ℚ) - (d.nTimeLastCheckpoint : ℚ)) / 86400) * d.fTransactionsPerDay * 5) := by
  simp [GuessVerificationProgress.work, h, fSigcheckVerificationFactor]

theorem GuessVerificationProgress.work_caseB (d : CCheckpointData) (T : Int) (p : CBlockIndex)
    (h : d.nTransactionsLastCheckpoint < p.nChainTx) :
    GuessVerificationProgress.work d T p =
      ((d.nTransactionsLastCheckpoint : ℚ) +
          ((p.nChainTx : ℚ) - (d.nTransactionsLastCheckpoint : ℚ)) * 5,
        (((T : ℚ) - (p.nTime : ℚ)) / 86400) * d.fTransactionsPerDay * 5) := by
  have h' : ¬ p.nChainTx ≤ d.nTransactionsLastCheckpoint := not_le.mpr h
  simp [GuessVerificationProgress.work, h', fSigcheckVerificationFactor]

theorem fdiv_of_ne (a b : ℚ) (h : b ≠ 0) : fdiv a b = some (a / b) := by
  simp [fdiv, h]

theorem fdiv_unit_interval (a b : ℚ) (ha : 0 ≤ a) (hb : 0 ≤ b) (hpos : 0 < a + b) :
    ∃ r, fdiv a (a + b) = some r ∧ 0 ≤ r ∧ r ≤ 1 := by
  refine ⟨a / (a + b), fdiv_of_ne a (a + b) (ne_of_gt hpos), ?_, ?_⟩
  · exact div_nonneg ha (le_of_lt hpos)
  · rw [div_le_one hpos]
    linarith

/-- C7: Case A of the progress model.  For a non-null node with transaction count
`n ≤ txLast` and any current time `T`, the result is the quotient of `workBefore = n`
by `workBefore + workAfter`, where
`workAfter = (txLast - n) + ((T - tsLast) / 86400) * ratePerDay * 5`, over the rationals:
it is that finite quotient whenever the divisor is not zero. -/
theorem GuessVerificationProgress_caseA (d : CCheckpointData) (p : CBlockIndex) (T : Int)
    (h : p.nChainTx ≤ d.nTransactionsLastCheckpoint) :
    GuessVerificationProgress d T (some p) =
        fdiv (p.nChainTx : ℚ)
          ((p.nChainTx : ℚ) + (((d.nTransactionsLastCheckpoint : ℚ) - (p.nChainTx : ℚ)) +
            (((T : ℚ) - (d.nTimeLastCheckpoint : ℚ)) / 86400) * d.fTransactionsPerDay * 5)) ∧
      ((p.nChainTx : ℚ) + (((d.nTransactionsLastCheckpoint : ℚ) - (p.nChainTx : ℚ)) +
            (((T : ℚ) - (d.nTimeLastCheckpoint : ℚ)) / 86400) * d.fTransactionsPerDay * 5) ≠ 0 →
        GuessVerificationProgress d T (some p) =
          some ((p.nChainTx : ℚ) /
            ((p.nChainTx : ℚ) + (((d.nTransactionsLastCheckpoint : ℚ) - (p.nChainTx : ℚ)) +
              (((T : ℚ) - (d.nTimeLastCheckpoint : ℚ)) / 86400) *
                d.fTransactionsPerDay * 5)))) := by
  have key : GuessVerificationProgress d T (some p) =
      fdiv (p.nChainTx : ℚ)
        ((p.nChainTx : ℚ) + (((d.nTransactionsLastCheckpoint : ℚ) - (p.nChainTx : ℚ)) +
          (((T : ℚ) - (d.nTimeLastCheckpoint : ℚ)) / 86400) * d.fTransactionsPerDay * 5)) := by
    simp only [GuessVerificationProgress, GuessVerificationProgress.work_caseA d T p h]
  exact ⟨key, fun hne => by rw [key, fdiv_of_ne _ _ hne]⟩

/-- Witness of C7, scenario 1: `tsLast = 1000`, `txLast = 50`, `ratePerDay = 10`, `n = 30`
and `T = 1000` give `workBefore = 30`, `workAfter = 20` and the progress 30/50 = 3/5. -/
theorem GuessVerificationProgress_caseA_witness :
    (30 : Int) ≤ scenarioData.nTransactionsLastCheckpoint ∧
      (((50 : ℚ) - 30) + (((1000 : ℚ) - 1000) / 86400) * 10 * 5 = 20) ∧
      GuessVerificationProgress scenarioData 1000 (some (scenarioNode 60 990 30 0xd)) =
        some (3 / 5) := by
  refine ⟨by decide, by norm_num, ?_⟩
  rw [(GuessVerificationProgress_caseA scenarioData (scenarioNode 60 990 30 0xd) 1000
    (by decide)).2 (by norm_num [scenarioData, scenarioNode])]
  norm_num [scenarioData, scenarioNode]

/-- C8: Case B of the progress model.  For a non-null node with transaction count
`n > txLast` and timestamp `t`, and any current time `T`, the result is the quotient of
`workBefore = txLast + (n - txLast) * 5` by `workBefore + workAfter`, where
`workAfter = ((T - t) / 86400) * ratePerDay * 5`, over the rationals: it is that finite
quotient whenever the divisor is not zero. -/
theorem GuessVerificationProgress_caseB (d : CCheckpointData) (p : CBlockIndex) (T : Int)
    (h : d.nTransactionsLastCheckpoint < p.nChainTx) :
    GuessVerificationProgress d T (some p) =
        fdiv ((d.nTransactionsLastCheckpoint : ℚ) +
            ((p.nChainTx : ℚ) - (d.nTransactionsLastCheckpoint : ℚ)) * 5)
          (((d.nTransactionsLastCheckpoint : ℚ) +
            ((p.nChainTx : ℚ) - (d.nTransactionsLastCheckpoint : ℚ)) * 5) +
            (((T : ℚ) - (p.nTime : ℚ)) / 86400) * d.fTransactionsPerDay * 5) ∧
      (((d.nTransactionsLastCheckpoint : ℚ) +
            ((p.nChainTx : ℚ) - (d.nTransactionsLastCheckpoint : ℚ)) * 5) +
            (((T : ℚ) - (p.nTime : ℚ)) / 86400) * d.fTransactionsPerDay * 5 ≠ 0 →
        GuessVerificationProgress d T (some p) =
          some (((d.nTransactionsLastCheckpoint : ℚ) +
              ((p.nChainTx : ℚ) - (d.nTransactionsLastCheckpoint : ℚ)) * 5) /
            (((d.nTransactionsLastCheckpoint : ℚ) +
              ((p.nChainTx : ℚ) - (d.nTransactionsLastCheckpoint : ℚ)) * 5) +
              (((T : ℚ) - (p.nTime : ℚ)) / 86400) * d.fTransactionsPerDay * 5))) := by
  have key : GuessVerificationProgress d T (some p) =
      fdiv ((d.nTransactionsLastCheckpoint : ℚ) +
          ((p.nChainTx : ℚ) - (d.nTransactionsLastCheckpoint : ℚ)) * 5)
        (((d.nTransactionsLastCheckpoint : ℚ) +
          ((p.nChainTx : ℚ) - (d.nTransactionsLastCheckpoint : ℚ)) * 5) +
          (((T : ℚ) - (p.nTime : ℚ)) / 86400) * d.fTransactionsPerDay * 5) := by
    simp only [GuessVerificationProgress, GuessVerificationProgress.work_caseB d T p h]
  exact ⟨key, fun hne => by rw [key, fdiv_of_ne _ _ hne]⟩

/-- Witness of C8, scenario 2: `tsLast = 1000`, `txLast = 50`, `ratePerDay = 10`, `n = 80`,
`t = 1000` and `T = 1000 + 86400` give `workBefore = 200`, `workAfter = 50` and the
progress 200/250 = 4/5. -/
theorem GuessVerificationProgress_caseB_witness :
    scenarioData.nTransactionsLastCheckpoint < (80 : Int) ∧
      ((50 : ℚ) + ((80 : ℚ) - 50) * 5 = 200) ∧
      ((((1000 + 86400 : ℚ) - 1000) / 86400) * 10 * 5 = 50) ∧
      GuessVerificationProgress scenarioData (1000 + 86400)
        (some (scenarioNode 130 1000 80 0xe)) = some (4 / 5) := by
  refine ⟨by decide, by norm_num, by norm_num, ?_⟩
  rw [(GuessVerificationProgress_caseB scenarioData (scenarioNode 130 1000 80 0xe)
    (1000 + 86400) (by decide)).2 (by norm_num [scenarioData, scenarioNode])]
  norm_num [scenarioData, scenarioNode]

/-- Counterexample to C9 with the metadata of the source and non-negative inputs: for a
node with transaction count 23062 the result is negative at `T = 0`, and it exceeds 1
at `T = 1489231307 - 30`, thirty seconds before the last checkpoint. -/
theorem GuessVerificationProgress_unit_interval_counterexample :
    GuessVerificationProgress Checkpoints 0
        (some (scenarioNode 196177 1489231307 23062 0)) = some (-691860 / 1488539447) ∧
      (-691860 / 1488539447 : ℚ) < 0 ∧
      GuessVerificationProgress Checkpoints (1489231307 - 30)
        (some (scenarioNode 196177 1489231307 23062 0)) = some (23062 / 23061) ∧
      (1 : ℚ) < 23062 / 23061 := by
  refine ⟨?_, by norm_num, ?_, by norm_num⟩
  · rw [GuessVerificationProgress, GuessVerificationProgress.work_caseA _ _ _ (by decide),
      fdiv_of_ne _ _ (by norm_num [Checkpoints, data, scenarioNode])]
    norm_num [Checkpoints, data, scenarioNode]
  · rw [GuessVerificationProgress, GuessVerificationProgress.work_caseA _ _ _ (by decide),
      fdiv_of_ne _ _ (by norm_num [Checkpoints, data, scenarioNode])]
    norm_num [Checkpoints, data, scenarioNode]

/-- C9, amended: for a non-null node with non-negative transaction count and a current
time `T` not earlier than the reference time of its case (the last-checkpoint timestamp
when `n ≤ txLast`, the node's timestamp when `n > txLast`), with a positive `txLast` and
a non-negative rate, the result is a finite value in [0, 1]. -/
theorem GuessVerificationProgress_unit_interval (d : CCheckpointData) (p : CBlockIndex)
    (T : Int) (hrate : 0 ≤ d.fTransactionsPerDay) (htx : 0 < d.nTransactionsLastCheckpoint)
    (hn : 0 ≤ p.nChainTx)
    (hT : if p.nChainTx ≤ d.nTransactionsLastCheckpoint then d.nTimeLastCheckpoint ≤ T
      else p.nTime ≤ T) :
    ∃ r, GuessVerificationProgress d T (some p) = some r ∧ 0 ≤ r ∧ r ≤ 1 := by
  have hnq : (0 : ℚ) ≤ (p.nChainTx : ℚ) := by exact_mod_cast hn
  have htxq : (0 : ℚ) < (d.nTransactionsLastCheckpoint : ℚ) := by exact_mod_cast htx
  by_cases hc : p.nChainTx ≤ d.nTransactionsLastCheckpoint
  · rw [if_pos hc] at hT
    have hcq : (p.nChainTx : ℚ) ≤ (d.nTransactionsLastCheckpoint : ℚ) := by exact_mod_cast hc
    have hTq : (0 : ℚ) ≤ (T : ℚ) - (d.nTimeLastCheckpoint : ℚ) := by
      have : (d.nTimeLastCheckpoint : ℚ) ≤ (T : ℚ) := by exact_mod_cast hT
      linarith
    have hE : (0 : ℚ) ≤
        (((T : ℚ) - (d.nTimeLastCheckpoint : ℚ)) / 86400) * d.fTransactionsPerDay * 5 := by
      positivity
    simp only [GuessVerificationProgress, GuessVerificationProgress.work_caseA d T p hc]
    exact fdiv_unit_interval _ _ hnq (by linarith) (by linarith)
  · rw [if_neg hc] at hT
    have hlt : d.nTransactionsLastCheckpoint < p.nChainTx := not_le.mp hc
    have hltq : (d.nTransactionsLastCheckpoint : ℚ) < (p.nChainTx : ℚ) := by exact_mod_cast hlt
    have hTq : (0 : ℚ) ≤ (T : ℚ) - (p.nTime : ℚ) := by
      have : (p.nTime : ℚ) ≤ (T : ℚ) := by exact_mod_cast hT
      linarith
    have hE : (0 : ℚ) ≤ (((T : ℚ) - (p.nTime : ℚ)) / 86400) * d.fTransactionsPerDay * 5 := by
      positivity
    simp only [GuessVerificationProgress, GuessVerificationProgress.work_caseB d T p hlt]
    exact fdiv_unit_interval _ _ (by linarith) hE (by linarith)

/-- Witness of the amended C9 with the metadata of the source: a node before the last
checkpoint one day after it, and a node past the last checkpoint at its own timestamp. -/
theorem GuessVerificationProgress_unit_interval_witness :
    (∃ r, GuessVerificationProgress Checkpoints (1489231307 + 86400)
        (some (scenarioNode 9649 1400000000 1200 0)) = some r ∧ 0 ≤ r ∧ r ≤ 1) ∧
      (∃ r, GuessVerificationProgress Checkpoints 1489240000
        (some (scenarioNode 196200 1489240000 23100 0)) = some r ∧ 0 ≤ r ∧ r ≤ 1) :=
  ⟨GuessVerificationProgress_unit_interval Checkpoints (scenarioNode 9649 1400000000 1200 0)
      (1489231307 + 86400) (by norm_num [Checkpoints, data]) (by decide) (by decide)
      (by decide),
    GuessVerificationProgress_unit_interval Checkpoints
      (scenarioNode 196200 1489240000 23100 0) 1489240000 (by norm_num [Checkpoints, data])
      (by decide) (by decide) (by decide)⟩

theorem Double.div_zero_divisor (a b : Double) (hb : b.isZero = true) :
    (a.div b).isFinite = false ∧ (a.isZero = true → a.div b = Double.nan) ∧
      (a.isFinite = true → a.isZero = false → ∃ s, a.div b = Double.inf s) := by
  cases b with
  | nan => simp [Double.isZero] at hb
  | inf sb => simp [Double.isZero] at hb
  | finite sb mb eb =>
    have hmb : mb = 0 := by simpa [Double.isZero] using hb
    subst hmb
    cases a with
    | nan => simp [Double.div, Double.isFinite, Double.isZero]
    | inf sa => simp [Double.div, Double.isFinite, Double.isZero]
    | finite sa ma ea =>
      by_cases hma : ma = 0
      · simp [Double.div, Double.isFinite, Double.isZero, hma]
      · simp [Double.div, Double.isFinite, Double.isZero, hma]

/-- Counterexample to C10 with the metadata of the source.  For the node with
transaction count 23064 and timestamp 1490000000 at `T = 1490000000 - 692160` the total
work is zero, both in exact arithmetic (`23072 - 23072`) and in binary64 (`+0.0`), and
the code returns `+infinity`, not 0.0.  At the claim's own example (count 0,
`T = 1489231307 - 691860`) the binary64 divisor is `-2^-38`, not zero, and the quotient
`0 / -2^-38` is evaluated to `-0.0`. -/
theorem GuessVerificationProgress64_zero_divisor_counterexample :
    (GuessVerificationProgress.work Checkpoints (1490000000 - 692160)
          (scenarioNode 196200 1490000000 23064 0)).1 +
        (GuessVerificationProgress.work Checkpoints (1490000000 - 692160)
          (scenarioNode 196200 1490000000 23064 0)).2 = 0 ∧
      GuessVerificationProgress64.work Checkpoints (1490000000 - 692160)
          (scenarioNode 196200 1490000000 23064 0) =
        (Double.finite false (23072 * 2 ^ 38) (-38),
          Double.finite true (23072 * 2 ^ 38) (-38)) ∧
      (Double.finite false (23072 * 2 ^ 38) (-38)).add
          (Double.finite true (23072 * 2 ^ 38) (-38)) = Double.finite false 0 (-1074) ∧
      GuessVerificationProgress64 Checkpoints (1490000000 - 692160)
          (some (scenarioNode 196200 1490000000 23064 0)) = Double.inf false ∧
      GuessVerificationProgress64.work Checkpoints (1489231307 - 691860)
          (scenarioNode 0 1489231307 0 0) =
        (Double.finite false 0 (-1074), Double.finite true (2 ^ 52) (-90)) ∧
      GuessVerificationProgress64 Checkpoints (1489231307 - 691860)
          (some (scenarioNode 0 1489231307 0 0)) = Double.finite true 0 (-1074) := by
  refine ⟨?_, by decide, by decide, by decide, by decide, by decide⟩
  rw [GuessVerificationProgress.work_caseB _ _ _ (by decide)]
  norm_num [Checkpoints, data, scenarioNode]

/-- C10, amended: there is no guard on the divisor.  For every non-null node and current
time at which the computed `fWorkBefore + fWorkAfter` is zero, the code evaluates the
quotient by zero: the result is not a finite number (so not 0.0); it is NaN when
`fWorkBefore` is zero and an infinity when `fWorkBefore` is a non-zero number. -/
theorem GuessVerificationProgress64_zero_divisor (d : CCheckpointData) (p : CBlockIndex)
    (T : Int)
    (h : ((GuessVerificationProgress64.work d T p).1.add
      (GuessVerificationProgress64.work d T p).2).isZero = true) :
    (GuessVerificationProgress64 d T (some p)).isFinite = false ∧
      ((GuessVerificationProgress64.work d T p).1.isZero = true →
        GuessVerificationProgress64 d T (some p) = Double.nan) ∧
      ((GuessVerificationProgress64.work d T p).1.isFinite = true →
        (GuessVerificationProgress64.work d T p).1.isZero = false →
        ∃ s, GuessVerificationProgress64 d T (some p) = Double.inf s) := by
  simp only [GuessVerificationProgress64]
  exact Double.div_zero_divisor _ _ h

/-- Witness of the amended C10.  In the scenario registry the node with transaction
count 0 one day before the last checkpoint has `fWorkBefore = 0` and `fWorkAfter =
50 - 50 = 0`, and the result is NaN; with transaction count 30 the work figures are 30
and -30 and the result is an infinity. -/
theorem GuessVerificationProgress64_zero_divisor_witness :
    GuessVerificationProgress64 scenarioData (1000 - 86400)
        (some (scenarioNode 0 900 0 0xa)) = Double.nan ∧
      ∃ s, GuessVerificationProgress64 scenarioData (1000 - 86400)
        (some (scenarioNode 0 900 30 0xa)) = Double.inf s :=
  ⟨(GuessVerificationProgress64_zero_divisor scenarioData (scenarioNode 0 900 0 0xa)
      (1000 - 86400) (by decide)).2.1 (by decide),
    (GuessVerificationProgress64_zero_divisor scenarioData (scenarioNode 0 900 30 0xa)
      (1000 - 86400) (by decide)).2.2 (by decide) (by decide)⟩

theorem GuessVerificationProgress.work_eq_branches (d : CCheckpointData) (T : Int)
    (p : CBlockIndex) :
    GuessVerificationProgress.work d T p =
      if p.nChainTx ≤ d.nTransactionsLastCheckpoint then
        GuessVerificationProgress.workCaseA d T p
      else GuessVerificationProgress.workCaseB d T p := by
  unfold GuessVerificationProgress.work GuessVerificationProgress.workCaseA
    GuessVerificationProgress.workCaseB
  rfl

/-- C13: for a null node `GuessVerificationProgress` returns 0, whatever the current
time and the checkpoint metadata. -/
theorem GuessVerificationProgress_null (d : CCheckpointData) (T : Int) :
    GuessVerificationProgress d T none = some 0 := by
  rfl

/-! ## The checkpoint table of the source -/

/-- C14: the checkpoint table of the source is non-empty, holds the genesis entry at
height 0, has only non-negative heights, lists its heights in strictly increasing
order (the thirteen heights of the source, none dropped), and no two entries share a
height; hence `GetTotalBlocksEstimate` always finds a last entry. -/
theorem mapCheckpoints_invariant :
    mapCheckpoints ≠ [] ∧
      (0, 0x563ac70cc2642286ad8463559011621fc4debe7ab2525900f74d079fc73cb5f2)
        ∈ mapCheckpoints ∧
      (∀ e ∈ mapCheckpoints, 0 ≤ e.1) ∧
      StdMap.Ordered mapCheckpoints ∧
      mapCheckpoints.map (fun e => e.1) =
        [0, 9649, 20000, 30000, 40000, 50000, 60000, 70000, 80000, 90000, 100000, 150000,
          196177] ∧
      (∀ a ∈ mapCheckpoints, ∀ b ∈ mapCheckpoints, a.1 = b.1 → a = b) ∧
      (∀ fCheckpoints : Bool, ∃ r, GetTotalBlocksEstimate fCheckpoints Checkpoints = some r) := by
  refine ⟨by decide, by decide, by decide, by decide, by decide, by decide, ?_⟩
  intro f
  cases f
  · exact ⟨0, by decide⟩
  · exact ⟨196177, by decide⟩

theorem GetLastCheckpoint.loop_congr (idx₁ idx₂ : StdMap uint256 (Option CBlockIndex))
    (l : List (Int × uint256))
    (h : ∀ e ∈ l, (idx₁.find e.2).map (fun t => t.2) = (idx₂.find e.2).map (fun t => t.2)) :
    GetLastCheckpoint.loop idx₁ l = GetLastCheckpoint.loop idx₂ l := by
  induction l with
  | nil => rfl
  | cons a rest ih =>
    have ha := h a (by simp)
    have hr := ih (fun e he => h e (by simp [he]))
    cases h₁ : idx₁.find a.2 with
    | none =>
      cases h₂ : idx₂.find a.2 with
      | none => simp [GetLastCheckpoint.loop, h₁, h₂, hr]
      | some t₂ => simp [h₁, h₂] at ha
    | some t₁ =>
      cases h₂ : idx₂.find a.2 with
      | none => simp [h₁, h₂] at ha
      | some t₂ =>
        have : t₁.2 = t₂.2 := by simpa [h₁, h₂] using ha
        simp [GetLastCheckpoint.loop, h₁, h₂, this]

/-- C17: `GetLastCheckpoint` reads the index only at the checkpoint hashes.  Two indexes
that, for every checkpoint hash, either both lack it or both store the same pointer
under it give the same result, for either value of the enabled flag. -/
theorem GetLastCheckpoint_index_congr (fCheckpoints : Bool) (d : CCheckpointData)
    (idx₁ idx₂ : StdMap uint256 (Option CBlockIndex))
    (h : ∀ e ∈ d.mapCheckpoints,
      (idx₁.find e.2).map (fun t => t.2) = (idx₂.find e.2).map (fun t => t.2)) :
    GetLastCheckpoint fCheckpoints d idx₁ = GetLastCheckpoint fCheckpoints d idx₂ := by
  cases fCheckpoints
  · rfl
  · have h' : ∀ e ∈ d.mapCheckpoints.reverse,
        (idx₁.find e.2).map (fun t => t.2) = (idx₂.find e.2).map (fun t => t.2) :=
      fun e he => h e (List.mem_reverse.mp he)
    simp [GetLastCheckpoint, GetLastCheckpoint.loop_congr idx₁ idx₂ _ h']

/-- Witness of C17: two indexes that agree on the hashes of heights 0 and 100 and differ
on all their other keys. -/
theorem GetLastCheckpoint_index_congr_witness :
    scenarioIndex ≠ scenarioIndexOther ∧
      GetLastCheckpoint true scenarioData scenarioIndex =
        GetLastCheckpoint true scenarioData scenarioIndexOther ∧
      GetLastCheckpoint false scenarioData scenarioIndex =
        GetLastCheckpoint false scenarioData scenarioIndexOther :=
  ⟨by decide,
    GetLastCheckpoint_index_congr true scenarioData scenarioIndex scenarioIndexOther
      (by decide),
    GetLastCheckpoint_index_congr false scenarioData scenarioIndex scenarioIndexOther
      (by decide)⟩

/-! ## Bounds and monotonicity of the progress estimate -/

theorem GuessVerificationProgress.work_bounds (d : CCheckpointData) (p : CBlockIndex)
    (T : Int) (hrate : 0 ≤ d.fTransactionsPerDay) (hn : 0 ≤ p.nChainTx)
    (hT : if p.nChainTx ≤ d.nTransactionsLastCheckpoint then d.nTimeLastCheckpoint ≤ T
      else p.nTime ≤ T) :
    0 ≤ (GuessVerificationProgress.work d T p).1 ∧
      0 ≤ (GuessVerificationProgress.work d T p).2 ∧
      (d.nTransactionsLastCheckpoint : ℚ) ≤
        (GuessVerificationProgress.work d T p).1 + (GuessVerificationProgress.work d T p).2 := by
  have hnq : (0 : ℚ) ≤ (p.nChainTx : ℚ) := by exact_mod_cast hn
  by_cases hc : p.nChainTx ≤ d.nTransactionsLastCheckpoint
  · rw [if_pos hc] at hT
    have hcq : (p.nChainTx : ℚ) ≤ (d.nTransactionsLastCheckpoint : ℚ) := by exact_mod_cast hc
    have hTq : (0 : ℚ) ≤ (T : ℚ) - (d.nTimeLastCheckpoint : ℚ) := by
      have : (d.nTimeLastCheckpoint : ℚ) ≤ (T : ℚ) := by exact_mod_cast hT
      linarith
    have hE : (0 : ℚ) ≤
        (((T : ℚ) - (d.nTimeLastCheckpoint : ℚ)) / 86400) * d.fTransactionsPerDay * 5 := by
      positivity
    rw [GuessVerificationProgress.work_caseA d T p hc]
    exact ⟨hnq, by dsimp only; linarith, by dsimp only; linarith⟩
  · rw [if_neg hc] at hT
    have hlt : d.nTransactionsLastCheckpoint < p.nChainTx := not_le.mp hc
    have hltq : (d.nTransactionsLastCheckpoint : ℚ) < (p.nChainTx : ℚ) := by exact_mod_cast hlt
    have hTq : (0 : ℚ) ≤ (T : ℚ) - (p.nTime : ℚ) := by
      have : (p.nTime : ℚ) ≤ (T : ℚ) := by exact_mod_cast hT
      linarith
    have hE : (0 : ℚ) ≤ (((T : ℚ) - (p.nTime : ℚ)) / 86400) * d.fTransactionsPerDay * 5 := by
      positivity
    rw [GuessVerificationProgress.work_caseB d T p hlt]
    exact ⟨by dsimp only; linarith, hE, by dsimp only; linarith⟩

theorem fdiv_mono (a b c e : ℚ) (ha : 0 ≤ a) (hab : a ≤ b) (he : 0 ≤ e) (hec : e ≤ c)
    (hpos : 0 < a + c) (hpos' : 0 < b + e) :
    ∃ r₁ r₂, fdiv a (a + c) = some r₁ ∧ fdiv b (b + e) = some r₂ ∧ r₁ ≤ r₂ := by
  refine ⟨a / (a + c), b / (b + e), fdiv_of_ne _ _ (ne_of_gt hpos),
    fdiv_of_ne _ _ (ne_of_gt hpos'), ?_⟩
  rw [div_le_div_iff₀ hpos hpos']
  have h₁ : a * e ≤ a * c := mul_le_mul_of_nonneg_left hec ha
  have h₂ : a * c ≤ b * c := mul_le_mul_of_nonneg_right hab (by linarith)
  nlinarith

/-- C15: with the metadata of the source, for a non-null node with non-negative
transaction count and a current time not earlier than the reference time of its case,
the divisor `fWorkBefore + fWorkAfter` is strictly positive and the quotient returned,
without any clamp, lies in [0, 1]. -/
theorem GuessVerificationProgress_source_safe (p : CBlockIndex) (T : Int)
    (hn : 0 ≤ p.nChainTx)
    (hT : if p.nChainTx ≤ 23062 then 1489231307 ≤ T else p.nTime ≤ T) :
    0 < (GuessVerificationProgress.work Checkpoints T p).1 +
        (GuessVerificationProgress.work Checkpoints T p).2 ∧
      GuessVerificationProgress Checkpoints T (some p) =
        some ((GuessVerificationProgress.work Checkpoints T p).1 /
          ((GuessVerificationProgress.work Checkpoints T p).1 +
            (GuessVerificationProgress.work Checkpoints T p).2)) ∧
      0 ≤ (GuessVerificationProgress.work Checkpoints T p).1 /
          ((GuessVerificationProgress.work Checkpoints T p).1 +
            (GuessVerificationProgress.work Checkpoints T p).2) ∧
      (GuessVerificationProgress.work Checkpoints T p).1 /
          ((GuessVerificationProgress.work Checkpoints T p).1 +
            (GuessVerificationProgress.work Checkpoints T p).2) ≤ 1 := by
  obtain ⟨h₁, h₂, h₃⟩ := GuessVerificationProgress.work_bounds Checkpoints p T
    (by norm_num [Checkpoints, data]) hn hT
  have hpos : 0 < (GuessVerificationProgress.work Checkpoints T p).1 +
      (GuessVerificationProgress.work Checkpoints T p).2 := by
    have : (0 : ℚ) < (Checkpoints.nTransactionsLastCheckpoint : ℚ) := by
      norm_num [Checkpoints, data]
    linarith
  refine ⟨hpos, ?_, div_nonneg h₁ (le_of_lt hpos), ?_⟩
  · simp only [GuessVerificationProgress]
    exact fdiv_of_ne _ _ (ne_of_gt hpos)
  · rw [div_le_one hpos]
    linarith

/-- Witness of C15: a node before the last checkpoint one day after it, and a node past
the last checkpoint at its own timestamp. -/
theorem GuessVerificationProgress_source_safe_witness :
    (0 < (GuessVerificationProgress.work Checkpoints (1489231307 + 86400)
          (scenarioNode 20000 1450000000 2500 0)).1 +
        (GuessVerificationProgress.work Checkpoints (1489231307 + 86400)
          (scenarioNode 20000 1450000000 2500 0)).2) ∧
      (0 < (GuessVerificationProgress.work Checkpoints 1489300000
          (scenarioNode 196300 1489300000 23200 0)).1 +
        (GuessVerificationProgress.work Checkpoints 1489300000
          (scenarioNode 196300 1489300000 23200 0)).2) :=
  ⟨(GuessVerificationProgress_source_safe (scenarioNode 20000 1450000000 2500 0)
      (1489231307 + 86400) (by decide) (by decide)).1,
    (GuessVerificationProgress_source_safe (scenarioNode 196300 1489300000 23200 0)
      1489300000 (by decide) (by decide)).1⟩

/-- C16: the two branches meet at the checkpoint boundary.  At `n = txLast` the figures
of the `else` branch have the same `fWorkBefore` (namely `txLast`) as those of the `if`
branch, which is the one the code takes there; the `fWorkAfter` of the `else` branch
exceeds that of the `if` branch by `((tsLast - t) / 86400) * ratePerDay * 5`, so the two
branches agree when the node's timestamp `t` equals `tsLast`. -/
theorem GuessVerificationProgress_boundary (d : CCheckpointData) (p : CBlockIndex) (T : Int)
    (hn : p.nChainTx = d.nTransactionsLastCheckpoint) :
    (GuessVerificationProgress.workCaseB d T p).1 =
        (GuessVerificationProgress.workCaseA d T p).1 ∧
      (GuessVerificationProgress.workCaseA d T p).1 = (d.nTransactionsLastCheckpoint : ℚ) ∧
      (GuessVerificationProgress.workCaseA d T p).2 =
        (((T : ℚ) - (d.nTimeLastCheckpoint : ℚ)) / 86400) * d.fTransactionsPerDay * 5 ∧
      (GuessVerificationProgress.workCaseB d T p).2 =
        (((T : ℚ) - (p.nTime : ℚ)) / 86400) * d.fTransactionsPerDay * 5 ∧
      (GuessVerificationProgress.workCaseB d T p).2 -
          (GuessVerificationProgress.workCaseA d T p).2 =
        (((d.nTimeLastCheckpoint : ℚ) - (p.nTime : ℚ)) / 86400) * d.fTransactionsPerDay * 5 ∧
      (p.nTime = d.nTimeLastCheckpoint →
        GuessVerificationProgress.workCaseB d T p =
          GuessVerificationProgress.workCaseA d T p) ∧
      GuessVerificationProgress.work d T p = GuessVerificationProgress.workCaseA d T p := by
  refine ⟨?_, ?_, ?_, ?_, ?_, ?_, ?_⟩
  · simp [GuessVerificationProgress.workCaseA, GuessVerificationProgress.workCaseB, hn]
  · simp [GuessVerificationProgress.workCaseA, hn]
  · simp [GuessVerificationProgress.workCaseA, hn, fSigcheckVerificationFactor]
  · simp [GuessVerificationProgress.workCaseB, fSigcheckVerificationFactor]
  · simp only [GuessVerificationProgress.workCaseA, GuessVerificationProgress.workCaseB, hn,
      fSigcheckVerificationFactor]
    push_cast
    ring
  · intro ht
    simp [GuessVerificationProgress.workCaseA, GuessVerificationProgress.workCaseB, hn, ht]
  · rw [GuessVerificationProgress.work_eq_branches, if_pos (le_of_eq hn)]

/-- Witness of C16 in the scenario registry: a node with transaction count 50 whose
timestamp 900 lies 100 seconds before the last checkpoint. -/
theorem GuessVerificationProgress_boundary_witness :
    (GuessVerificationProgress.workCaseB scenarioData 2000 (scenarioNode 100 900 50 0xb)).2 -
        (GuessVerificationProgress.workCaseA scenarioData 2000
          (scenarioNode 100 900 50 0xb)).2 =
      (((scenarioData.nTimeLastCheckpoint : ℚ) -
        ((scenarioNode 100 900 50 0xb).nTime : ℚ)) / 86400) *
          scenarioData.fTransactionsPerDay * 5 :=
  (GuessVerificationProgress_boundary scenarioData (scenarioNode 100 900 50 0xb) 2000
    (by decide)).2.2.2.2.1

/-- Counterexample to C11 with the metadata of the source and non-negative inputs.  A
pair of counts that straddles `txLast`: at `T = 1489231307`, with node timestamp one day
earlier, the count 23062 has progress 1 and the larger count 23063 has progress
23067/25947 < 1 (in binary64: 1.0 and 8007440752653889 * 2^-53).  A pair inside Case A:
at `T = 0` the count 0 has progress 0 and the larger count 23062 has a negative progress.
Rounding: at `t = 1489240000` and `T = t + 1` the counts 53705540 and 53705541, both in
Case B, have the binary64 progress 9007199253622511 * 2^-53 and
9007199253622510 * 2^-53, the larger count one unit in the last place below the
smaller. -/
theorem GuessVerificationProgress_mono_count_counterexample :
    GuessVerificationProgress Checkpoints 1489231307
        (some (scenarioNode 196177 (1489231307 - 86400) 23062 0)) = some 1 ∧
      GuessVerificationProgress Checkpoints 1489231307
        (some (scenarioNode 196177 (1489231307 - 86400) 23063 0)) = some (23067 / 25947) ∧
      (23067 / 25947 : ℚ) < 1 ∧
      GuessVerificationProgress Checkpoints 0 (some (scenarioNode 0 0 0 0)) = some 0 ∧
      GuessVerificationProgress Checkpoints 0 (some (scenarioNode 0 0 23062 0)) =
        some (-691860 / 1488539447) ∧
      (-691860 / 1488539447 : ℚ) < 0 ∧
      GuessVerificationProgress64 Checkpoints 1489231307
        (some (scenarioNode 196177 (1489231307 - 86400) 23062 0)) =
          Double.finite false (2 ^ 52) (-52) ∧
      GuessVerificationProgress64 Checkpoints 1489231307
        (some (scenarioNode 196177 (1489231307 - 86400) 23063 0)) =
          Double.finite false 8007440752653889 (-53) ∧
      GuessVerificationProgress64 Checkpoints (1489240000 + 1)
        (some (scenarioNode 196200 1489240000 53705540 0)) =
          Double.finite false 9007199253622511 (-53) ∧
      GuessVerificationProgress64 Checkpoints (1489240000 + 1)
        (some (scenarioNode 196200 1489240000 53705541 0)) =
          Double.finite false 9007199253622510 (-53) := by
  refine ⟨?_, ?_, by norm_num, ?_, ?_, by norm_num, by decide, by decide, by decide,
    by decide⟩
  · rw [GuessVerificationProgress, GuessVerificationProgress.work_caseA _ _ _ (by decide),
      fdiv_of_ne _ _ (by norm_num [Checkpoints, data, scenarioNode])]
    norm_num [Checkpoints, data, scenarioNode]
  · rw [GuessVerificationProgress, GuessVerificationProgress.work_caseB _ _ _ (by decide),
      fdiv_of_ne _ _ (by norm_num [Checkpoints, data, scenarioNode])]
    norm_num [Checkpoints, data, scenarioNode]
  · rw [GuessVerificationProgress, GuessVerificationProgress.work_caseA _ _ _ (by decide),
      fdiv_of_ne _ _ (by norm_num [Checkpoints, data, scenarioNode])]
    norm_num [Checkpoints, data, scenarioNode]
  · rw [GuessVerificationProgress, GuessVerificationProgress.work_caseA _ _ _ (by decide),
      fdiv_of_ne _ _ (by norm_num [Checkpoints, data, scenarioNode])]
    norm_num [Checkpoints, data, scenarioNode]

/-- C11, amended: in exact arithmetic, with a positive `txLast` and a non-negative rate,
for two nodes of the same timestamp `t` and non-negative counts `n₁ ≤ n₂`, the progress
of the first is at most the progress of the second, provided: when both counts are at
most `txLast`, the total work `txLast + ((T - tsLast) / 86400) * ratePerDay * 5` of
Case A is positive (as it is for every `T ≥ tsLast`); when both exceed `txLast`, `t ≤ T`;
when the pair straddles `txLast`, `tsLast ≤ t ≤ T`. -/
theorem GuessVerificationProgress_mono_count (d : CCheckpointData) (p₁ p₂ : CBlockIndex)
    (T : Int) (hrate : 0 ≤ d.fTransactionsPerDay) (htx : 0 < d.nTransactionsLastCheckpoint)
    (ht : p₁.nTime = p₂.nTime) (hn : 0 ≤ p₁.nChainTx) (hle : p₁.nChainTx ≤ p₂.nChainTx)
    (hT : if p₂.nChainTx ≤ d.nTransactionsLastCheckpoint then
        0 < (d.nTransactionsLastCheckpoint : ℚ) +
          (((T : ℚ) - (d.nTimeLastCheckpoint : ℚ)) / 86400) * d.fTransactionsPerDay * 5
      else if d.nTransactionsLastCheckpoint < p₁.nChainTx then p₂.nTime ≤ T
      else d.nTimeLastCheckpoint ≤ p₂.nTime ∧ p₂.nTime ≤ T) :
    ∃ r₁ r₂, GuessVerificationProgress d T (some p₁) = some r₁ ∧
      GuessVerificationProgress d T (some p₂) = some r₂ ∧ r₁ ≤ r₂ := by
  have hnq : (0 : ℚ) ≤ (p₁.nChainTx : ℚ) := by exact_mod_cast hn
  have hleq : (p₁.nChainTx : ℚ) ≤ (p₂.nChainTx : ℚ) := by exact_mod_cast hle
  have htxq : (0 : ℚ) < (d.nTransactionsLastCheckpoint : ℚ) := by exact_mod_cast htx
  by_cases h₂ : p₂.nChainTx ≤ d.nTransactionsLastCheckpoint
  · -- both nodes in Case A: the two quotients have the same positive divisor
    rw [if_pos h₂] at hT
    have h₁ : p₁.nChainTx ≤ d.nTransactionsLastCheckpoint := le_trans hle h₂
    have hD : ∀ n : ℚ, n + (((d.nTransactionsLastCheckpoint : ℚ) - n) +
        (((T : ℚ) - (d.nTimeLastCheckpoint : ℚ)) / 86400) * d.fTransactionsPerDay * 5) =
        (d.nTransactionsLastCheckpoint : ℚ) +
          (((T : ℚ) - (d.nTimeLastCheckpoint : ℚ)) / 86400) * d.fTransactionsPerDay * 5 := by
      intro n
      ring
    simp only [GuessVerificationProgress, GuessVerificationProgress.work_caseA d T p₁ h₁,
      GuessVerificationProgress.work_caseA d T p₂ h₂, hD]
    exact ⟨_, _, fdiv_of_ne _ _ (ne_of_gt hT), fdiv_of_ne _ _ (ne_of_gt hT),
      div_le_div_of_nonneg_right hleq (le_of_lt hT)⟩
  · rw [if_neg h₂] at hT
    have h₂lt : d.nTransactionsLastCheckpoint < p₂.nChainTx := not_le.mp h₂
    have h₂q : (d.nTransactionsLastCheckpoint : ℚ) < (p₂.nChainTx : ℚ) := by
      exact_mod_cast h₂lt
    by_cases h₁ : d.nTransactionsLastCheckpoint < p₁.nChainTx
    · -- both nodes in Case B
      rw [if_pos h₁] at hT
      have h₁q : (d.nTransactionsLastCheckpoint : ℚ) < (p₁.nChainTx : ℚ) := by
        exact_mod_cast h₁
      have hTq : (0 : ℚ) ≤ (T : ℚ) - (p₂.nTime : ℚ) := by
        have : (p₂.nTime : ℚ) ≤ (T : ℚ) := by exact_mod_cast hT
        linarith
      have hE : (0 : ℚ) ≤
          (((T : ℚ) - (p₂.nTime : ℚ)) / 86400) * d.fTransactionsPerDay * 5 := by
        positivity
      simp only [GuessVerificationProgress, GuessVerificationProgress.work_caseB d T p₁ h₁,
        GuessVerificationProgress.work_caseB d T p₂ h₂lt, ht]
      exact fdiv_mono _ _ _ _ (by linarith) (by linarith) hE (le_refl _) (by linarith)
        (by linarith)
    · -- the first node in Case A, the second in Case B
      rw [if_neg h₁] at hT
      have h₁le : p₁.nChainTx ≤ d.nTransactionsLastCheckpoint := not_lt.mp h₁
      have h₁q : (p₁.nChainTx : ℚ) ≤ (d.nTransactionsLastCheckpoint : ℚ) := by
        exact_mod_cast h₁le
      have hts : (d.nTimeLastCheckpoint : ℚ) ≤ (p₂.nTime : ℚ) := by exact_mod_cast hT.1
      have hTq : (0 : ℚ) ≤ (T : ℚ) - (p₂.nTime : ℚ) := by
        have : (p₂.nTime : ℚ) ≤ (T : ℚ) := by exact_mod_cast hT.2
        linarith
      have hEB : (0 : ℚ) ≤
          (((T : ℚ) - (p₂.nTime : ℚ)) / 86400) * d.fTransactionsPerDay * 5 := by
        positivity
      have hdiv : ((T : ℚ) - (p₂.nTime : ℚ)) / 86400 ≤
          ((T : ℚ) - (d.nTimeLastCheckpoint : ℚ)) / 86400 := by linarith
      have hEle : (((T : ℚ) - (p₂.nTime : ℚ)) / 86400) * d.fTransactionsPerDay * 5 ≤
          (((T : ℚ) - (d.nTimeLastCheckpoint : ℚ)) / 86400) * d.fTransactionsPerDay * 5 := by
        have := mul_le_mul_of_nonneg_right hdiv hrate
        linarith
      simp only [GuessVerificationProgress, GuessVerificationProgress.work_caseA d T p₁ h₁le,
        GuessVerificationProgress.work_caseB d T p₂ h₂lt]
      exact fdiv_mono _ _ _ _ hnq (by linarith) hEB (by linarith) (by linarith) (by linarith)

/-- Witness of the amended C11 with the metadata of the source: a pair inside Case A
after the last checkpoint, a pair inside Case A one day before it (the total work is
still positive), a pair inside Case B and a pair that straddles `txLast`. -/
theorem GuessVerificationProgress_mono_count_witness :
    (∃ r₁ r₂, GuessVerificationProgress Checkpoints 1489300000
        (some (scenarioNode 9649 1489250000 1000 0)) = some r₁ ∧
      GuessVerificationProgress Checkpoints 1489300000
        (some (scenarioNode 20000 1489250000 2000 0)) = some r₂ ∧ r₁ ≤ r₂) ∧
    (∃ r₁ r₂, GuessVerificationProgress Checkpoints (1489231307 - 86400)
        (some (scenarioNode 9649 1489250000 1000 0)) = some r₁ ∧
      GuessVerificationProgress Checkpoints (1489231307 - 86400)
        (some (scenarioNode 20000 1489250000 2000 0)) = some r₂ ∧ r₁ ≤ r₂) ∧
    (∃ r₁ r₂, GuessVerificationProgress Checkpoints 1489300000
        (some (scenarioNode 196200 1489250000 23100 0)) = some r₁ ∧
      GuessVerificationProgress Checkpoints 1489300000
        (some (scenarioNode 196300 1489250000 23200 0)) = some r₂ ∧ r₁ ≤ r₂) ∧
    (∃ r₁ r₂, GuessVerificationProgress Checkpoints 1489300000
        (some (scenarioNode 196177 1489250000 23062 0)) = some r₁ ∧
      GuessVerificationProgress Checkpoints 1489300000
        (some (scenarioNode 196178 1489250000 23063 0)) = some r₂ ∧ r₁ ≤ r₂) :=
  ⟨GuessVerificationProgress_mono_count Checkpoints (scenarioNode 9649 1489250000 1000 0)
      (scenarioNode 20000 1489250000 2000 0) 1489300000 (by norm_num [Checkpoints, data])
      (by decide) rfl (by decide) (by decide)
      (by norm_num [Checkpoints, data, scenarioNode]),
    GuessVerificationProgress_mono_count Checkpoints (scenarioNode 9649 1489250000 1000 0)
      (scenarioNode 20000 1489250000 2000 0) (1489231307 - 86400)
      (by norm_num [Checkpoints, data]) (by decide) rfl (by decide) (by decide)
      (by norm_num [Checkpoints, data, scenarioNode]),
    GuessVerificationProgress_mono_count Checkpoints (scenarioNode 196200 1489250000 23100 0)
      (scenarioNode 196300 1489250000 23200 0) 1489300000 (by norm_num [Checkpoints, data])
      (by decide) rfl (by decide) (by decide)
      (by norm_num [Checkpoints, data, scenarioNode]),
    GuessVerificationProgress_mono_count Checkpoints (scenarioNode 196177 1489250000 23062 0)
      (scenarioNode 196178 1489250000 23063 0) 1489300000 (by norm_num [Checkpoints, data])
      (by decide) rfl (by decide) (by decide)
      (by norm_num [Checkpoints, data, scenarioNode])⟩

/-- Counterexample to C12 with the metadata of the source: for the node with transaction
count 23062 the progress at `T₁ = 0` is negative and the progress at the later time
`T₂ = 1489231307` is 1. -/
theorem GuessVerificationProgress_mono_time_counterexample :
    (0 : Int) ≤ 1489231307 ∧
      GuessVerificationProgress Checkpoints 0
        (some (scenarioNode 196177 1489231307 23062 1)) = some (-691860 / 1488539447) ∧
      GuessVerificationProgress Checkpoints 1489231307
        (some (scenarioNode 196177 1489231307 23062 1)) = some 1 ∧
      (-691860 / 1488539447 : ℚ) < 1 := by
  refine ⟨by decide, ?_, ?_, by norm_num⟩
  · rw [GuessVerificationProgress, GuessVerificationProgress.work_caseA _ _ _ (by decide),
      fdiv_of_ne _ _ (by norm_num [Checkpoints, data, scenarioNode])]
    norm_num [Checkpoints, data, scenarioNode]
  · rw [GuessVerificationProgress, GuessVerificationProgress.work_caseA _ _ _ (by decide),
      fdiv_of_ne _ _ (by norm_num [Checkpoints, data, scenarioNode])]
    norm_num [Checkpoints, data, scenarioNode]

/-- C12, amended: with a positive `txLast` and a non-negative rate, for a fixed non-null
node with non-negative count and two current times `T₁ ≤ T₂`, of which `T₁` is not
earlier than the reference time of the node's case (`tsLast` when `n ≤ txLast`, the
node's timestamp otherwise), the progress at `T₂` is at most the progress at `T₁`. -/
theorem GuessVerificationProgress_mono_time (d : CCheckpointData) (p : CBlockIndex)
    (T₁ T₂ : Int) (hrate : 0 ≤ d.fTransactionsPerDay)
    (htx : 0 < d.nTransactionsLastCheckpoint) (hn : 0 ≤ p.nChainTx)
    (hT : if p.nChainTx ≤ d.nTransactionsLastCheckpoint then d.nTimeLastCheckpoint ≤ T₁
      else p.nTime ≤ T₁)
    (h12 : T₁ ≤ T₂) :
    ∃ r₁ r₂, GuessVerificationProgress d T₁ (some p) = some r₁ ∧
      GuessVerificationProgress d T₂ (some p) = some r₂ ∧ r₂ ≤ r₁ := by
  have hnq : (0 : ℚ) ≤ (p.nChainTx : ℚ) := by exact_mod_cast hn
  have htxq : (0 : ℚ) < (d.nTransactionsLastCheckpoint : ℚ) := by exact_mod_cast htx
  have h12q : (T₁ : ℚ) ≤ (T₂ : ℚ) := by exact_mod_cast h12
  by_cases hc : p.nChainTx ≤ d.nTransactionsLastCheckpoint
  · rw [if_pos hc] at hT
    have hcq : (p.nChainTx : ℚ) ≤ (d.nTransactionsLastCheckpoint : ℚ) := by exact_mod_cast hc
    have hTq : (0 : ℚ) ≤ (T₁ : ℚ) - (d.nTimeLastCheckpoint : ℚ) := by
      have : (d.nTimeLastCheckpoint : ℚ) ≤ (T₁ : ℚ) := by exact_mod_cast hT
      linarith
    have hE : (0 : ℚ) ≤
        (((T₁ : ℚ) - (d.nTimeLastCheckpoint : ℚ)) / 86400) * d.fTransactionsPerDay * 5 := by
      positivity
    have hdiv : ((T₁ : ℚ) - (d.nTimeLastCheckpoint : ℚ)) / 86400 ≤
        ((T₂ : ℚ) - (d.nTimeLastCheckpoint : ℚ)) / 86400 := by linarith
    have hEle :
        (((T₁ : ℚ) - (d.nTimeLastCheckpoint : ℚ)) / 86400) * d.fTransactionsPerDay * 5 ≤
        (((T₂ : ℚ) - (d.nTimeLastCheckpoint : ℚ)) / 86400) * d.fTransactionsPerDay * 5 := by
      have := mul_le_mul_of_nonneg_right hdiv hrate
      linarith
    simp only [GuessVerificationProgress, GuessVerificationProgress.work_caseA d T₁ p hc,
      GuessVerificationProgress.work_caseA d T₂ p hc]
    obtain ⟨r₂, r₁, e₂, e₁, hr⟩ := fdiv_mono (p.nChainTx : ℚ) (p.nChainTx : ℚ)
      (((d.nTransactionsLastCheckpoint : ℚ) - (p.nChainTx : ℚ)) +
        (((T₂ : ℚ) - (d.nTimeLastCheckpoint : ℚ)) / 86400) * d.fTransactionsPerDay * 5)
      (((d.nTransactionsLastCheckpoint : ℚ) - (p.nChainTx : ℚ)) +
        (((T₁ : ℚ) - (d.nTimeLastCheckpoint : ℚ)) / 86400) * d.fTransactionsPerDay * 5)
      hnq (le_refl _) (by linarith) (by linarith) (by linarith) (by linarith)
    exact ⟨r₁, r₂, e₁, e₂, hr⟩
  · rw [if_neg hc] at hT
    have hlt : d.nTransactionsLastCheckpoint < p.nChainTx := not_le.mp hc
    have hltq : (d.nTransactionsLastCheckpoint : ℚ) < (p.nChainTx : ℚ) := by exact_mod_cast hlt
    have hTq : (0 : ℚ) ≤ (T₁ : ℚ) - (p.nTime : ℚ) := by
      have : (p.nTime : ℚ) ≤ (T₁ : ℚ) := by exact_mod_cast hT
      linarith
    have hE : (0 : ℚ) ≤ (((T₁ : ℚ) - (p.nTime : ℚ)) / 86400) * d.fTransactionsPerDay * 5 := by
      positivity
    have hdiv : ((T₁ : ℚ) - (p.nTime : ℚ)) / 86400 ≤ ((T₂ : ℚ) - (p.nTime : ℚ)) / 86400 := by
      linarith
    have hEle : (((T₁ : ℚ) - (p.nTime : ℚ)) / 86400) * d.fTransactionsPerDay * 5 ≤
        (((T₂ : ℚ) - (p.nTime : ℚ)) / 86400) * d.fTransactionsPerDay * 5 := by
      have := mul_le_mul_of_nonneg_right hdiv hrate
      linarith
    simp only [GuessVerificationProgress, GuessVerificationProgress.work_caseB d T₁ p hlt,
      GuessVerificationProgress.work_caseB d T₂ p hlt]
    obtain ⟨r₂, r₁, e₂, e₁, hr⟩ := fdiv_mono
      ((d.nTransactionsLastCheckpoint : ℚ) +
        ((p.nChainTx : ℚ) - (d.nTransactionsLastCheckpoint : ℚ)) * 5)
      ((d.nTransactionsLastCheckpoint : ℚ) +
        ((p.nChainTx : ℚ) - (d.nTransactionsLastCheckpoint : ℚ)) * 5)
      ((((T₂ : ℚ) - (p.nTime : ℚ)) / 86400) * d.fTransactionsPerDay * 5)
      ((((T₁ : ℚ) - (p.nTime : ℚ)) / 86400) * d.fTransactionsPerDay * 5)
      (by linarith) (le_refl _) hE hEle (by linarith) (by linarith)
    exact ⟨r₁, r₂, e₁, e₂, hr⟩

/-- Witness of the amended C12 with the metadata of the source: a node before the last
checkpoint and a node past it, each at two times one day apart. -/
theorem GuessVerificationProgress_mono_time_witness :
    (∃ r₁ r₂, GuessVerificationProgress Checkpoints 1489300000
        (some (scenarioNode 9649 1400000000 1000 0)) = some r₁ ∧
      GuessVerificationProgress Checkpoints (1489300000 + 86400)
        (some (scenarioNode 9649 1400000000 1000 0)) = some r₂ ∧ r₂ ≤ r₁) ∧
    (∃ r₁ r₂, GuessVerificationProgress Checkpoints 1489300000
        (some (scenarioNode 196200 1489250000 23100 0)) = some r₁ ∧
      GuessVerificationProgress Checkpoints (1489300000 + 86400)
        (some (scenarioNode 196200 1489250000 23100 0)) = some r₂ ∧ r₂ ≤ r₁) :=
  ⟨GuessVerificationProgress_mono_time Checkpoints (scenarioNode 9649 1400000000 1000 0)
      1489300000 (1489300000 + 86400) (by norm_num [Checkpoints, data]) (by decide)
      (by decide) (by decide) (by decide),
    GuessVerificationProgress_mono_time Checkpoints (scenarioNode 196200 1489250000 23100 0)
      1489300000 (1489300000 + 86400) (by norm_num [Checkpoints, data]) (by decide)
      (by decide) (by decide) (by decide)⟩

end Checkpoints
